import Mathlib

/-!
ESP32 Embedded Brew: a shallow embedding of `src/main.cpp`.

The firmware keeps five global variables, serves three HTTP routes and checks an
auto-off timer on every pass of `loop()`.  The globals are the record `State`, the
hardware counters are `Hw`, what the board and its libraries answer is `World`, and
every call the firmware makes to the outside is an `Event` appended to a trace.
Machine integers are natural numbers reduced modulo `2 ^ 32` where the C code wraps.
-/

namespace Brew

/-! ## Machine arithmetic -/

/-- Number of values of a 32-bit unsigned (`unsigned long` and `uint32_t` on the ESP32-C3). -/
def U32_SIZE : Nat := 2 ^ 32

/-- Unsigned 32-bit subtraction `a - b`, wrapping as in C. -/
def sub32 (a b : Nat) : Nat := (a % U32_SIZE + U32_SIZE - b % U32_SIZE) % U32_SIZE

/-- A C `float` as far as the firmware looks at it: not-a-number, an infinity or a number. -/
inductive CFloat where
  | nan : CFloat
  | inf (negative : Bool) : CFloat
  | num (q : ℚ) : CFloat
  deriving DecidableEq

/-- The C library `isnan`. -/
def isnan : CFloat → Bool
  | .nan => true
  | _ => false

/-- Division of a `float` by a non-zero constant (rounding is not modelled). -/
def CFloat.divConst (x : CFloat) (d : ℚ) : CFloat :=
  match x with
  | .nan => .nan
  | .inf n => .inf n
  | .num q => .num (q / d)

/-! ## Configuration constants (lines 20-43 of `main.cpp`) -/

def STA_SSID : String := "YOUR_WIFI_SSID"
def STA_PASS : String := "YOUR_WIFI_PASS"
def AP_SSID : String := "smart_coffee"
def AP_PASS : String := "11111111"
def HOSTNAME : String := "brew"
def RELAY_PIN : Nat := 2
def I2C_SDA_PIN : Nat := 5
def I2C_SCL_PIN : Nat := 6
def TEMP_MIN : CFloat := .num 20
def TEMP_MAX : CFloat := .num 80
def PRESS_MIN : CFloat := .num 980
def PRESS_MAX : CFloat := .num 1030
/-- Forty minutes in milliseconds, `40UL * 60UL * 1000UL`. -/
def BREW_AUTO_OFF_MS : Nat := (40 * 60 * 1000) % U32_SIZE

/-! ## Data model -/

/-- The global variables of the firmware that the handlers read or write. -/
structure State where
  clientMode : Bool
  bmpOk : Bool
  brewOn : Bool
  brewOnSince : Nat
  bootMillis : Nat
  deriving DecidableEq, Repr

/-- The initial values of the globals (lines 26, 32, 40-42). -/
def State.boot : State :=
  { clientMode := false, bmpOk := false, brewOn := false, brewOnSince := 0, bootMillis := 0 }

inductive Level where
  | LOW
  | HIGH
  deriving DecidableEq, Repr

inductive WifiMode where
  | WIFI_STA
  | WIFI_AP
  deriving DecidableEq, Repr

/-- One call of the firmware into the board or a library, in the order the calls are made. -/
inductive Event where
  | serialBegin (baud : Nat)
  | serial (text : String)
  | pinModeOutput (pin : Nat)
  | digitalWrite (pin : Nat) (level : Level)
  | delay (ms : Nat)
  | wireBegin (sda scl : Nat)
  | oledBegin
  | oledPowerSave (flag : Nat)
  | bmpBegin (addr : Nat)
  | wifiMode (mode : WifiMode)
  | wifiSetTxPower
  | wifiBegin (ssid pass : String)
  | wifiSetSleep (flag : Bool)
  | wifiDisconnect (wifiOff eraseAp : Bool)
  | wifiSoftAP (ssid pass : String)
  | mdnsBegin (host : String)
  | mdnsAddService (service proto : String) (port : Nat)
  | serverOn (uri : String) (postOnly : Bool)
  | serverOnNotFound
  | otaBegin
  | serverBegin
  | sendHeader (name value : String) (first : Bool)
  | send (code : Nat) (contentType body : String)
  deriving DecidableEq, Repr

/-- What the board and the libraries answer; fixed for one run. -/
structure World where
  /-- Extra milliseconds the `n`-th `delay` call of the run takes beyond the requested time. -/
  lag : Nat → Nat
  /-- Whether the `n`-th `WiFi.status()` call of the run returns `WL_CONNECTED`. -/
  wifiConnected : Nat → Bool
  /-- Result of `bmp.begin(addr)`. -/
  bmpFound : Nat → Bool
  /-- Result of `WiFi.softAP`. -/
  softAPOk : Bool
  /-- Result of `MDNS.begin`. -/
  mdnsOk : Bool
  /-- Result of `bmp.readTemperature()` at a given clock value. -/
  readTemperature : Nat → CFloat
  /-- Result of `bmp.readPressure()` at a given clock value. -/
  readPressure : Nat → CFloat
  /-- The Arduino conversion `String(value, decimalPlaces)`. -/
  floatStr : CFloat → Nat → String
  /-- Text of `WiFi.localIP().toString()`. -/
  localIP : String
  /-- Text of `WiFi.softAPIP().toString()`. -/
  softAPIP : String

/-- Counters of the hardware that advance during a run. -/
structure Hw where
  /-- Milliseconds since power-up, not wrapped. -/
  clock : Nat
  /-- Number of `delay` calls made so far. -/
  delays : Nat
  /-- Number of `WiFi.status()` calls made so far. -/
  polls : Nat
  deriving DecidableEq, Repr

/-- The whole system between two statements: globals, hardware counters, trace so far. -/
structure Sys where
  st : State
  hw : Hw
  out : List Event
  deriving DecidableEq, Repr

/-- The Arduino `millis()`: the clock as a 32-bit unsigned. -/
def millis (y : Sys) : Nat := y.hw.clock % U32_SIZE

/-- Append one event to the trace. -/
def emit (e : Event) (y : Sys) : Sys := { y with out := y.out ++ [e] }

/-- `Serial.print` and `Serial.printf`. -/
def serialPrint (text : String) (y : Sys) : Sys := emit (.serial text) y

/-- `Serial.println`, which ends the line with carriage return and line feed. -/
def serialPrintln (text : String) (y : Sys) : Sys := emit (.serial (text ++ "\r\n")) y

/-- The Arduino `delay(ms)`: blocks for at least `ms` milliseconds. -/
def delay (w : World) (ms : Nat) (y : Sys) : Sys :=
  { y with
    hw := { y.hw with clock := y.hw.clock + ms + w.lag y.hw.delays, delays := y.hw.delays + 1 }
    out := y.out ++ [.delay ms] }

/-! ## The auto-off check of `loop()` (lines 119-128) -/

/-- The statement of `loop()` after `server.handleClient()`. -/
def autoOffCheck (y : Sys) : Sys :=
  if y.st.brewOn && decide (y.st.brewOnSince > 0) then
    let now := millis y
    if sub32 now y.st.brewOnSince > BREW_AUTO_OFF_MS then
      serialPrintln "[BREW] Auto UI off after 40-minute timeout"
        { y with st := { y.st with brewOn := false, brewOnSince := 0 } }
    else y
  else y

/-! ## `handlePress` (lines 424-437) -/

/-- Relay close duration, the local constant `PRESS_MS`. -/
def PRESS_MS : Nat := 250

def handlePress (w : World) (y : Sys) : Sys :=
  let y := serialPrint ("[RELAY] Simulating button press for " ++ Nat.repr PRESS_MS ++ " ms\n") y
  let y := { y with st := { y.st with brewOn := !y.st.brewOn } }
  let y := { y with st := { y.st with brewOnSince := if y.st.brewOn then millis y else 0 } }
  let y := emit (.digitalWrite RELAY_PIN .LOW) y
  let y := delay w PRESS_MS y
  let y := emit (.digitalWrite RELAY_PIN .HIGH) y
  let y := emit (.sendHeader "Location" "/" true) y
  emit (.send 303 "text/plain" "") y

/-! ## Sensor read and uptime (lines 399-421) -/

/-- Values of `tempOut` and `pressOut` after `readBmp(tempOut, pressOut)`. -/
def readBmp (w : World) (y : Sys) : CFloat × CFloat :=
  if !y.st.bmpOk then
    (.nan, .nan)
  else
    (w.readTemperature y.hw.clock, (w.readPressure y.hw.clock).divConst 100)

/-- What `snprintf(buf, size, ...)` leaves in `buf`: the text cut to `size - 1` characters. -/
def snprintf (size : Nat) (text : String) : String := ⟨text.data.take (size - 1)⟩

/-- The cast `(unsigned)` of a value. -/
def toUnsigned (n : Nat) : Nat := n % U32_SIZE

def uptimeString (y : Sys) : String :=
  let ms := millis y
  let s := ms / 1000
  let m := s / 60
  let h := m / 60
  snprintf 40
    (Nat.repr (toUnsigned h) ++ "h " ++ Nat.repr (toUnsigned (m % 60)) ++ "m " ++
      Nat.repr (toUnsigned (s % 60)) ++ "s")

/-! ## `handleMetrics` (lines 440-459) -/

/-- The format string of `handleMetrics` with its five `%s` arguments filled in. -/
def metricsJson (uptime temp press sensorOk brew : String) : String :=
  "\x7b" ++
  "\"uptime\":\"" ++ uptime ++ "\"," ++
  "\"temp_c\":" ++ temp ++ "," ++
  "\"pressure_hpa\":" ++ press ++ "," ++
  "\"sensor_ok\":" ++ sensorOk ++ "," ++
  "\"brew_on\":" ++ brew ++
  "\x7d"

/-- Content of `buf` when `handleMetrics` sends it. -/
def metricsBody (w : World) (y : Sys) : String :=
  let (temp, press) := readBmp w y
  snprintf 256
    (metricsJson (uptimeString y)
      (if y.st.bmpOk && !isnan temp then w.floatStr temp 2 else "null")
      (if y.st.bmpOk && !isnan press then w.floatStr press 2 else "null")
      (if y.st.bmpOk then "true" else "false")
      (if y.st.brewOn then "true" else "false"))

def handleMetrics (w : World) (y : Sys) : Sys :=
  emit (.send 200 "application/json" (metricsBody w y)) y

/-! ## `handleRoot` (lines 183-396) -/

/-- Document head, style sheet and title: the literal of lines 196-244. -/
def HTML_HEAD : String :=
  "<!doctype html><html lang='en'><head>" ++
  "<meta charset='utf-8'>" ++
  "<meta name='viewport' content='width=device-width,initial-scale=1'>" ++
  "<title>Embedded Brew Control Panel</title>" ++
  "<style>" ++
  "body\x7bmargin:0;font-family:system-ui,-apple-system,Segoe UI,Roboto,sans-serif;" ++
  "background:#05060a;color:#e5e7eb;display:flex;justify-content:center;align-items:center;" ++
  "min-height:100vh;padding:16px;\x7d" ++
  ".card\x7bbackground:#111827;border-radius:18px;padding:24px 22px 28px;max-width:420px;width:100%;" ++
  "box-shadow:0 18px 45px rgba(0,0,0,.45),0 2px 8px rgba(0,0,0,.6);\x7d" ++
  "h1\x7bmargin:0 0 10px;font-size:1.4rem;color:#f9fafb;text-align:center;\x7d" ++
  ".stats\x7bmargin-top:4px;margin-bottom:10px;font-size:.9rem;color:#e5e7eb;\x7d" ++
  ".stats p\x7bmargin:2px 0;\x7d" ++
  ".mug-wrap\x7bdisplay:flex;justify-content:center;margin:14px 0 6px;\x7d" ++
  ".mug\x7bposition:relative;width:80px;height:65px;\x7d" ++
  ".mug-body\x7bposition:absolute;bottom:0;left:4px;width:70px;height:54px;background:#f9faf5;" ++
  "border-radius:16px 16px 18px 18px;\x7d" ++
  ".mug-handle\x7bposition:absolute;right:-14px;top:14px;width:22px;height:28px;border:4px solid #f9faf5;" ++
  "border-left:none;border-radius:0 18px 18px 0;\x7d" ++
  ".steam\x7bposition:absolute;width:8px;height:22px;border-radius:999px;" ++
  "border:2px solid #60a5fa;border-bottom:none;opacity:0;transition:opacity .35s ease-out,transform 1.4s ease-out;\x7d" ++
  ".steam.s1\x7bleft:18px;top:-20px;transform:translateY(6px);\x7d" ++
  ".steam.s2\x7bleft:38px;top:-22px;transform:translateY(8px);\x7d" ++
  ".mug.on .steam\x7bopacity:1;\x7d" ++
  ".mug.on .steam.s1\x7btransform:translateY(0);\x7d" ++
  ".mug.on .steam.s2\x7btransform:translateY(0);\x7d" ++
  ".gauges\x7bdisplay:flex;justify-content:space-between;margin-top:14px;gap:10px;\x7d" ++
  ".gauge\x7bflex:1;text-align:center;font-size:.8rem;\x7d" ++
  ".gauge-svg\x7bwidth:100%;display:block;\x7d" ++
  ".g-arc\x7bfill:none;stroke:#374151;stroke-width:6;stroke-linecap:round;\x7d" ++
  ".g-tick\x7bstroke:#4b5563;stroke-width:2;stroke-linecap:round;\x7d" ++
  ".g-needle\x7bstroke:#e5e7eb;stroke-width:2.2;stroke-linecap:round;" ++
  "transform-origin:100px 100px;transform:rotate(-90deg);transition:transform .25s ease-out;\x7d" ++
  ".g-center\x7bfill:#111827;stroke:#4b5563;stroke-width:2;\x7d" ++
  ".gauge-value\x7bmargin-top:6px;font-size:.95rem;color:#f9fafb;\x7d" ++
  ".gauge-label\x7bmargin-top:0;font-size:.8rem;color:#9ca3af;letter-spacing:.04em;text-transform:uppercase;\x7d" ++
  ".sensor-status\x7bmargin-top:6px;font-size:.8rem;color:#f97373;text-align:center;\x7d" ++
  ".btn-main\x7bdisplay:block;width:100%;margin-top:18px;padding:11px 18px;border-radius:999px;" ++
  "border:none;font-weight:600;font-size:.95rem;cursor:pointer;background:#2563eb;color:white;\x7d" ++
  ".btn-main:active\x7btransform:translateY(1px);\x7d" ++
  ".ota-row\x7bmargin-top:8px;font-size:.75rem;color:#9ca3af;text-align:center;\x7d" ++
  ".ota-row code\x7bbackground:#020617;border-radius:6px;padding:1px 4px;font-size:.75rem;\x7d" ++
  ".ota-link\x7bdisplay:inline-block;margin-top:4px;font-size:.78rem;color:#60a5fa;text-decoration:none;\x7d" ++
  ".ota-link:hover\x7btext-decoration:underline;\x7d" ++
  ".link-row\x7btext-align:center;margin-top:6px;font-size:.75rem;\x7d" ++
  ".link-row a\x7bcolor:#60a5fa;text-decoration:none;\x7d" ++
  ".link-row a:hover\x7btext-decoration:underline;\x7d" ++
  "</style></head><body><main class='card'>" ++
  "<h1>Embedded Brew Control Panel</h1>"

/-- Temperature gauge drawing: the literal of lines 267-281. -/
def HTML_TEMP_GAUGE : String :=
  "<div class='gauge gauge-temp'>" ++
  "<svg class='gauge-svg' viewBox='0 0 200 120'>" ++
  "<path class='g-arc' d='M20 100 A80 80 0 0 1 180 100' />" ++
  "<g class='g-ticks'>" ++
  "<line class='g-tick' x1='100' y1='28' x2='100' y2='36' />" ++
  "<line class='g-tick' x1='100' y1='28' x2='100' y2='36' transform='rotate(-60 100 100)' />" ++
  "<line class='g-tick' x1='100' y1='28' x2='100' y2='36' transform='rotate(-30 100 100)' />" ++
  "<line class='g-tick' x1='100' y1='28' x2='100' y2='36' transform='rotate(30 100 100)' />" ++
  "<line class='g-tick' x1='100' y1='28' x2='100' y2='36' transform='rotate(60 100 100)' />" ++
  "<line class='g-tick' x1='100' y1='28' x2='100' y2='36' transform='rotate(90 100 100)' />" ++
  "<line class='g-tick' x1='100' y1='28' x2='100' y2='36' transform='rotate(-90 100 100)' />" ++
  "</g>" ++
  "<line id='tempNeedle' class='g-needle' x1='100' y1='100' x2='100' y2='28' />" ++
  "<circle class='g-center' cx='100' cy='100' r='6' />" ++
  "</svg>"

/-- Pressure gauge drawing: the literal of lines 293-307. -/
def HTML_PRESS_GAUGE : String :=
  "<div class='gauge gauge-press'>" ++
  "<svg class='gauge-svg' viewBox='0 0 200 120'>" ++
  "<path class='g-arc' d='M20 100 A80 80 0 0 1 180 100' />" ++
  "<g class='g-ticks'>" ++
  "<line class='g-tick' x1='100' y1='28' x2='100' y2='36' />" ++
  "<line class='g-tick' x1='100' y1='28' x2='100' y2='36' transform='rotate(-60 100 100)' />" ++
  "<line class='g-tick' x1='100' y1='28' x2='100' y2='36' transform='rotate(-30 100 100)' />" ++
  "<line class='g-tick' x1='100' y1='28' x2='100' y2='36' transform='rotate(30 100 100)' />" ++
  "<line class='g-tick' x1='100' y1='28' x2='100' y2='36' transform='rotate(60 100 100)' />" ++
  "<line class='g-tick' x1='100' y1='28' x2='100' y2='36' transform='rotate(90 100 100)' />" ++
  "<line class='g-tick' x1='100' y1='28' x2='100' y2='36' transform='rotate(-90 100 100)' />" ++
  "</g>" ++
  "<line id='pressNeedle' class='g-needle' x1='100' y1='100' x2='100' y2='28' />" ++
  "<circle class='g-center' cx='100' cy='100' r='6' />" ++
  "</svg>"

/-- Rest of the polling script: the literal of lines 340-393. -/
def HTML_SCRIPT_TAIL : String :=
  ",GAUGE_MIN_ANGLE=-90,GAUGE_MAX_ANGLE=90;" ++
  "function clamp(v,min,max)\x7breturn v<min?min:(v>max?max:v);\x7d " ++
  "let lastTempAngle=null,lastPressAngle=null;" ++
  "function smoothAngle(target,last,alpha)\x7b" ++
  "if(last===null||isNaN(last))return target;" ++
  "return last+(target-last)*alpha;" ++
  "\x7d" ++
  "function updateFromMetrics(data)\x7b" ++
  "if(data.uptime)\x7bvar u=document.getElementById('uptime');if(u)u.textContent='Uptime: '+data.uptime;\x7d" ++
  "var sensorOk=!!data.sensor_ok;" ++
  "var sensorMsg=document.getElementById('sensorStatus');" ++
  "if(sensorMsg)\x7bsensorMsg.style.display=sensorOk?'none':'block';\x7d" ++
  "if(sensorOk)\x7b" ++
  "var t=data.temp_c;var p=data.pressure_hpa;" ++
  "var tv=document.getElementById('tempValue');" ++
  "var pv=document.getElementById('pressValue');" ++
  "if(tv)\x7btv.innerHTML=(t!=null? t.toFixed(1)+' &deg;C':'-- &deg;C');\x7d" ++
  "if(pv)\x7bpv.textContent=(p!=null? p.toFixed(1)+' hPa':'-- hPa');\x7d" ++
  "var tn=document.getElementById('tempNeedle');" ++
  "if(tn && t!=null)\x7b" ++
  "var tnVal=clamp(t,TEMP_MIN,TEMP_MAX);" ++
  "var tnNorm=(tnVal-TEMP_MIN)/(TEMP_MAX-TEMP_MIN);" ++
  "var tnAng=GAUGE_MIN_ANGLE+(GAUGE_MAX_ANGLE-GAUGE_MIN_ANGLE)*tnNorm;" ++
  "tnAng=smoothAngle(tnAng,lastTempAngle,0.35);" ++
  "lastTempAngle=tnAng;" ++
  "tn.style.transform='rotate('+tnAng+'deg)';\x7d" ++
  "var pn=document.getElementById('pressNeedle');" ++
  "if(pn && p!=null)\x7b" ++
  "var pnVal=clamp(p,PRESS_MIN,PRESS_MAX);" ++
  "var pnNorm=(pnVal-PRESS_MIN)/(PRESS_MAX-PRESS_MIN);" ++
  "var pnAng=GAUGE_MIN_ANGLE+(GAUGE_MAX_ANGLE-GAUGE_MIN_ANGLE)*pnNorm;" ++
  "pnAng=smoothAngle(pnAng,lastPressAngle,0.35);" ++
  "lastPressAngle=pnAng;" ++
  "pn.style.transform='rotate('+pnAng+'deg)';\x7d" ++
  "\x7d" ++
  "var mug=document.getElementById('mug');" ++
  "var btn=document.getElementById('brewButton');" ++
  "if(data.brew_on)\x7b" ++
  "if(mug)mug.classList.add('on');" ++
  "if(btn)btn.textContent='Turn Off';" ++
  "\x7delse\x7b" ++
  "if(mug)mug.classList.remove('on');" ++
  "if(btn)btn.textContent='Start Brewing';" ++
  "\x7d" ++
  "\x7d" ++
  "function pollMetrics()\x7b" ++
  "fetch('/metrics').then(function(r)\x7breturn r.json();\x7d).then(updateFromMetrics)" ++
  ".catch(function(e)\x7bconsole && console.warn && console.warn('metrics error',e);\x7d);" ++
  "\x7d" ++
  "document.addEventListener('DOMContentLoaded',function()\x7b" ++
  "pollMetrics();" ++
  "setInterval(pollMetrics,2500);" ++
  "\x7d);" ++
  "</script>"

/-- Temperature value line (lines 282-289). -/
def tempValueHtml (w : World) (bmpOk : Bool) (temp : CFloat) : String :=
  if bmpOk && !isnan temp then
    "<div id='tempValue' class='gauge-value'>" ++ w.floatStr temp 1 ++ " &deg;C</div>"
  else
    "<div id='tempValue' class='gauge-value'>-- &deg;C</div>"

/-- Pressure value line (lines 308-315). -/
def pressValueHtml (w : World) (bmpOk : Bool) (press : CFloat) : String :=
  if bmpOk && !isnan press then
    "<div id='pressValue' class='gauge-value'>" ++ w.floatStr press 1 ++ " hPa</div>"
  else
    "<div id='pressValue' class='gauge-value'>-- hPa</div>"

/-- Sensor status line (lines 318-325). -/
def sensorStatusHtml (bmpOk : Bool) : String :=
  if !bmpOk then
    "<p id='sensorStatus' class='sensor-status'>Sensor error (BMP280 not detected)</p>"
  else
    "<p id='sensorStatus' class='sensor-status' style='display:none;'>Sensor error</p>"

/-- Content of `html` when `handleRoot` sends it. -/
def rootHtml (w : World) (y : Sys) : String :=
  let modeText := if y.st.clientMode then "Station (client)" else "Access Point"
  let network := if y.st.clientMode then STA_SSID else AP_SSID
  let ip := if y.st.clientMode then w.localIP else w.softAPIP
  let (temp, press) := readBmp w y
  let html := HTML_HEAD
  let html := html ++
    ("<div class='stats'>" ++
      "<p id='uptime'>Uptime: " ++ uptimeString y ++ "</p>" ++
      "<p>Wi-Fi mode: " ++ modeText ++ "</p>" ++
      "<p>Network: " ++ network ++ "</p>" ++
      "<p>IP address: " ++ ip ++ "</p>" ++
      "<p>UI page: http://brew.local/</p>" ++
      "</div>")
  let html := html ++ "<div class='mug-wrap'><div id='mug' class='mug"
  let html := if y.st.brewOn then html ++ " on" else html
  let html := html ++
    ("'>" ++
      "<div class='steam s1'></div>" ++
      "<div class='steam s2'></div>" ++
      "<div class='mug-body'></div>" ++
      "<div class='mug-handle'></div>" ++
      "</div></div>")
  let html := html ++ "<div class='gauges'>"
  let html := html ++ HTML_TEMP_GAUGE
  let html := html ++ tempValueHtml w y.st.bmpOk temp
  let html := html ++ "<div class='gauge-label'>TEMPERATURE</div></div>"
  let html := html ++ HTML_PRESS_GAUGE
  let html := html ++ pressValueHtml w y.st.bmpOk press
  let html := html ++ "<div class='gauge-label'>PRESSURE</div></div></div>"
  let html := html ++ sensorStatusHtml y.st.bmpOk
  let html := html ++
    ("<form method='POST' action='/press'><button id='brewButton' class='btn-main' type='submit'>" ++
      (if y.st.brewOn then "Turn Off" else "Start Brewing") ++ "</button></form>")
  let html := html ++
    ("<div class='ota-row'>OTA update at <code>/update</code><br>" ++
      "<a class='ota-link' href='/update'>Open OTA Update</a></div>")
  let html := html ++ ("<script>" ++ "const TEMP_MIN=")
  let html := html ++ w.floatStr TEMP_MIN 1
  let html := html ++ ",TEMP_MAX="
  let html := html ++ w.floatStr TEMP_MAX 1
  let html := html ++ ",PRESS_MIN="
  let html := html ++ w.floatStr PRESS_MIN 1
  let html := html ++ ",PRESS_MAX="
  let html := html ++ w.floatStr PRESS_MAX 1
  let html := html ++ HTML_SCRIPT_TAIL
  html ++ "</main></body></html>"

def handleRoot (w : World) (y : Sys) : Sys :=
  emit (.send 200 "text/html" (rootHtml w y)) y

/-! ## `handleNotFound` (lines 462-465) -/

def handleNotFound (y : Sys) : Sys :=
  emit (.send 404 "text/plain" "Not found") y

/-! ## Network bring-up (lines 134-180) -/

/-- One call of `WiFi.status()`, compared with `WL_CONNECTED`. -/
def wifiStatusConnected (w : World) (y : Sys) : Bool × Sys :=
  (w.wifiConnected y.hw.polls, { y with hw := { y.hw with polls := y.hw.polls + 1 } })

/-- The `while` loop of `connectAsClientWithTimeout`; `none` when the fuel runs out. -/
def connectLoop (w : World) (start timeoutMs : Nat) : Nat → Sys → Option Sys
  | 0, _ => none
  | fuel + 1, y =>
    let (connected, y) := wifiStatusConnected w y
    if !connected && decide (sub32 (millis y) start < timeoutMs) then
      connectLoop w start timeoutMs fuel (serialPrint "." (delay w 500 y))
    else
      some y

def connectAsClientWithTimeout (w : World) (timeoutMs : Nat) (fuel : Nat) (y : Sys) :
    Option (Bool × Sys) :=
  let timeoutMs := timeoutMs % U32_SIZE
  let y := serialPrintln "[WiFi] Trying STA mode..." y
  let y := emit (.wifiMode .WIFI_STA) y
  let y := emit .wifiSetTxPower y
  let y := emit (.wifiBegin STA_SSID STA_PASS) y
  let y := emit (.wifiSetSleep true) y
  let start := millis y
  match connectLoop w start timeoutMs fuel y with
  | none => none
  | some y =>
    let y := serialPrintln "" y
    let (connected, y) := wifiStatusConnected w y
    if connected then
      some (true, serialPrint ("[WiFi] Connected to " ++ STA_SSID ++ ". IP: " ++ w.localIP ++ "\n") y)
    else
      let y := serialPrintln
        "[WiFi] Client mode connection timed out, starting smart_coffee access point." y
      some (false, emit (.wifiDisconnect true true) y)

def startAccessPoint (w : World) (y : Sys) : Sys :=
  let y := serialPrintln "[WiFi] Starting smart_coffee access point..." y
  let y := emit (.wifiMode .WIFI_AP) y
  let y := emit (.wifiSoftAP AP_SSID AP_PASS) y
  let ok := w.softAPOk
  let y := emit .wifiSetTxPower y
  if ok then
    serialPrint ("[WiFi] Access point started successfully. IP address: " ++ w.softAPIP ++ "\n") y
  else
    serialPrintln "[WiFi] Failed to start access point." y

/-! ## `setup` (lines 52-113) -/

/-- Board bring-up of `setup` (lines 55-64). -/
def setupBoard (w : World) (y : Sys) : Sys :=
  let y := emit (.serialBegin 115200) y
  let y := delay w 1200 y
  let y := serialPrintln "" y
  let y := serialPrintln "\n[BOOT] Client mode first, AP mode if needed, then OTA & mDNS" y
  let y := { y with st := { y.st with bootMillis := millis y } }
  let y := emit (.pinModeOutput RELAY_PIN) y
  let y := emit (.digitalWrite RELAY_PIN .HIGH) y
  let y := emit (.wireBegin I2C_SDA_PIN I2C_SCL_PIN) y
  let y := emit .oledBegin y
  emit (.oledPowerSave 1) y

/-- Sensor detection of `setup` (lines 67-81). -/
def setupSensor (w : World) (y : Sys) : Sys :=
  let y := emit (.bmpBegin 0x76) y
  if w.bmpFound 0x76 then
    serialPrintln "[BMP280] Sensor detected at 0x76" { y with st := { y.st with bmpOk := true } }
  else
    let y := emit (.bmpBegin 0x77) y
    if w.bmpFound 0x77 then
      serialPrintln "[BMP280] Sensor detected at 0x77" { y with st := { y.st with bmpOk := true } }
    else
      serialPrintln "[BMP280] NOT FOUND" { y with st := { y.st with bmpOk := false } }

/-- Name advertisement and route registration of `setup` (lines 95-112). -/
def setupServer (w : World) (y : Sys) : Sys :=
  let y := emit (.mdnsBegin HOSTNAME) y
  let y :=
    if w.mdnsOk then
      serialPrint ("[mDNS] http://" ++ HOSTNAME ++ ".local/\n") (emit (.mdnsAddService "http" "tcp" 80) y)
    else
      serialPrintln "[mDNS] Error starting mDNS" y
  let y := emit (.serverOn "/" false) y
  let y := emit (.serverOn "/press" true) y
  let y := emit (.serverOn "/metrics" false) y
  let y := emit .serverOnNotFound y
  let y := emit .otaBegin y
  let y := emit .serverBegin y
  serialPrint "[HTTP] Server started on port 80\n[OTA] ElegantOTA ready at /update\n" y

/-- Network selection of `setup` (lines 84-92); `none` when the fuel given to the connection
loop runs out. -/
def setupNetwork (w : World) (fuel : Nat) (y : Sys) : Option Sys :=
  match connectAsClientWithTimeout w 60000 fuel y with
  | none => none
  | some (true, y) => some { y with st := { y.st with clientMode := true } }
  | some (false, y) => some (startAccessPoint w { y with st := { y.st with clientMode := false } })

/-- The function `setup`: board, sensor, network, then name advertisement and routes. -/
def setup (w : World) (fuel : Nat) (y : Sys) : Option Sys :=
  (setupNetwork w fuel (setupSensor w (setupBoard w y))).map (setupServer w)

/-! ## `loop` (lines 116-129) -/

/-- The routes that `setup` registers for this firmware's own handlers. The routes of the
update library are served outside this file. -/
inductive Request where
  | root
  | press
  | metrics
  | notFound
  deriving DecidableEq, Repr

/-- The handler a request is dispatched to. -/
def dispatch (w : World) (r : Request) (y : Sys) : Sys :=
  match r with
  | .root => handleRoot w y
  | .press => handlePress w y
  | .metrics => handleMetrics w y
  | .notFound => handleNotFound y

/-- The call `server.handleClient()` with at most one request pending. -/
def handleClient (w : World) (req : Option Request) (y : Sys) : Sys :=
  match req with
  | none => y
  | some r => dispatch w r y

def loop (w : World) (req : Option Request) (y : Sys) : Sys :=
  autoOffCheck (handleClient w req y)

/-- System at power-up: initial globals, an empty trace and the clock at `clock`. -/
def Sys.boot (clock : Nat) : Sys :=
  { st := State.boot, hw := { clock := clock, delays := 0, polls := 0 }, out := [] }

/-! ## Sample inputs -/

/-- A world with no sensor, no Wi-Fi network in reach and exact delays. -/
def World.quiet : World :=
  { lag := fun _ => 0, wifiConnected := fun _ => false, bmpFound := fun _ => false,
    softAPOk := true, mdnsOk := true, readTemperature := fun _ => .nan,
    readPressure := fun _ => .nan, floatStr := fun _ _ => "0.0", localIP := "0.0.0.0",
    softAPIP := "192.168.4.1" }

/-- Brewing since `since`, looked at when the clock shows `clock`. -/
def Sys.brewing (since clock : Nat) : Sys :=
  { st := { State.boot with brewOn := true, brewOnSince := since, bootMillis := 1200 },
    hw := { clock := clock, delays := 1, polls := 0 }, out := [] }

/-- Idle appliance after boot, looked at when the clock shows `clock`. -/
def Sys.idle (clock : Nat) : Sys :=
  { st := { State.boot with bootMillis := 1200 },
    hw := { clock := clock, delays := 1, polls := 0 }, out := [] }

/-- A board whose sensor answered at boot but whose reads fail. -/
def World.failingReads : World :=
  { World.quiet with bmpFound := fun _ => true }

/-- The system `y` with the sensor flag `bmpOk` set to `flag`, all else equal. -/
def Sys.withBmpOk (flag : Bool) (y : Sys) : Sys := { y with st := { y.st with bmpOk := flag } }

/-! ## States and traces: what the theorems speak about -/

/-- The invariant of the appliance state: a timestamp is recorded (`brewOnSince` is not the
placeholder 0) exactly when `brewOn` is true. -/
def Invariant (s : State) : Prop := s.brewOnSince ≠ 0 ↔ s.brewOn = true

instance (s : State) : Decidable (Invariant s) := by
  unfold Invariant
  infer_instance

/-- The events a call appended to the trace. -/
def callTrace (before after : Sys) : List Event := after.out.drop before.out.length

/-- Whether an event acts on the relay line or holds it: a write to `RELAY_PIN` or a wait. -/
def isRelayAction : Event → Bool
  | .digitalWrite pin _ => pin == RELAY_PIN
  | .delay _ => true
  | _ => false

/-- Level of an output pin after a trace, given its level before. -/
def lineLevel (pin : Nat) (start : Level) (trace : List Event) : Level :=
  trace.foldl
    (fun level e =>
      match e with
      | .digitalWrite p l => if p = pin then l else level
      | _ => level)
    start

/-- The texts `a` and `b` are the same except that `a` has `s` where `b` has `t`. -/
def DiffersOnlyIn (a b s t : String) : Prop :=
  ∃ pre post : String, a = pre ++ s ++ post ∧ b = pre ++ t ++ post

/-- Whether an event is part of the HTTP response. -/
def isResponse : Event → Bool
  | .sendHeader _ _ _ => true
  | .send _ _ _ => true
  | _ => false

/-- The text `s` occurs in `body`. -/
def Contains (body s : String) : Prop := ∃ pre post : String, body = pre ++ s ++ post

/-- Time passes: the clock moves on by `ms` milliseconds. -/
def advance (ms : Nat) (y : Sys) : Sys := { y with hw := { y.hw with clock := y.hw.clock + ms } }

/-- A sequence of requests, each served after the given idle time. -/
def serveAll (w : World) : List (Nat × Request) → Sys → Sys
  | [], y => y
  | (ms, r) :: rest, y => serveAll w rest (dispatch w r (advance ms y))

/-- Trace of `k` passes of the waiting loop of `connectAsClientWithTimeout`. -/
def loopTrace : Nat → List Event
  | 0 => []
  | k + 1 => .delay 500 :: .serial "." :: loopTrace k

/-- Whether an event brings up the access point (the `WiFi.softAP` call of `startAccessPoint`). -/
def isAccessPointStart : Event → Bool
  | .wifiSoftAP _ _ => true
  | _ => false

/-- The Wi-Fi mode in force after an event, given the mode before it. -/
def wifiModeStep (mode : Option WifiMode) (e : Event) : Option WifiMode :=
  match e with
  | .wifiMode m => some m
  | _ => mode

/-- The Wi-Fi mode that the last `WiFi.mode` call of a trace selected. -/
def lastWifiMode (trace : List Event) : Option WifiMode := trace.foldl wifiModeStep none

/-- Hours, minutes and seconds of a number of seconds, in the format `%luh %lum %lus`. -/
def renderHMS (T : Nat) : String :=
  Nat.repr (T / 3600) ++ "h " ++ Nat.repr (T / 60 % 60) ++ "m " ++ Nat.repr (T % 60) ++ "s"

/-- The uptime text as the data model describes it: rendered from the time elapsed since the
recorded boot timestamp. -/
def uptimeSinceBoot (bootMillis now : Nat) : String := renderHMS ((now - bootMillis) / 1000)

/-! ## Theorems -/

theorem BREW_AUTO_OFF_MS_eq : BREW_AUTO_OFF_MS = 2400000 := by decide

theorem autoOffCheck_fires (y : Sys) (hon : y.st.brewOn = true) (hsince : 0 < y.st.brewOnSince)
    (hel : 2400000 < sub32 (millis y) y.st.brewOnSince) :
    (autoOffCheck y).st = { y.st with brewOn := false, brewOnSince := 0 } := by
  simp [autoOffCheck, hon, hsince, BREW_AUTO_OFF_MS_eq, hel, serialPrintln, emit]

theorem autoOffCheck_idle (y : Sys)
    (h : y.st.brewOn = false ∨ y.st.brewOnSince = 0 ∨ sub32 (millis y) y.st.brewOnSince ≤ 2400000) :
    autoOffCheck y = y := by
  unfold autoOffCheck
  rcases h with h | h | h
  · simp [h]
  · simp [h]
  · have : ¬ sub32 (millis y) y.st.brewOnSince > BREW_AUTO_OFF_MS := by
      rw [BREW_AUTO_OFF_MS_eq]; omega
    simp [this]

/-- C1, as stated, fails: brewing since 1000 ms and looked at exactly forty minutes later
(clock 2401000, elapsed 2400000), the check of `loop` leaves both fields as they were. -/
theorem C1_counterexample :
    (Sys.brewing 1000 2401000).st.brewOn = true ∧
    2400000 ≤ sub32 (millis (Sys.brewing 1000 2401000)) (Sys.brewing 1000 2401000).st.brewOnSince ∧
    (loop World.quiet none (Sys.brewing 1000 2401000)).st.brewOn = true ∧
    (loop World.quiet none (Sys.brewing 1000 2401000)).st.brewOnSince = 1000 := by
  decide

/-- C1, amended: when a pass of `loop` reaches the auto-off check with `brewOn` true, a recorded
timestamp `brewOnSince > 0` and a wrapped elapsed time `now - brewOnSince` strictly greater than
2,400,000 ms, the check sets `brewOn = false` and `brewOnSince = 0`. -/
theorem C1_autoOff_clears_after_more_than_40min (w : World) (req : Option Request) (y : Sys)
    (hon : (handleClient w req y).st.brewOn = true)
    (hsince : 0 < (handleClient w req y).st.brewOnSince)
    (hel : 2400000 <
      sub32 (millis (handleClient w req y)) (handleClient w req y).st.brewOnSince) :
    (loop w req y).st.brewOn = false ∧ (loop w req y).st.brewOnSince = 0 := by
  unfold loop
  rw [autoOffCheck_fires _ hon hsince hel]
  exact ⟨rfl, rfl⟩

/-- C1 (amended) at a concrete input: brewing since 1000 ms, checked at 2401001 ms. -/
theorem C1_autoOff_clears_witness :
    (handleClient World.quiet none (Sys.brewing 1000 2401001)).st.brewOn = true ∧
    0 < (handleClient World.quiet none (Sys.brewing 1000 2401001)).st.brewOnSince ∧
    ((loop World.quiet none (Sys.brewing 1000 2401001)).st.brewOn = false ∧
      (loop World.quiet none (Sys.brewing 1000 2401001)).st.brewOnSince = 0) :=
  ⟨by decide, by decide,
    C1_autoOff_clears_after_more_than_40min World.quiet none (Sys.brewing 1000 2401001)
      (by decide) (by decide) (by decide)⟩

/-- C2: when a pass of `loop` reaches the auto-off check with `brewOn` false, or with `brewOn`
true and a wrapped elapsed time `now - brewOnSince` below 2,400,000 ms, the check changes no
global: `brewOn`, `brewOnSince` and the others are what `handleClient` left. -/
theorem C2_autoOff_noop (w : World) (req : Option Request) (y : Sys)
    (h : (handleClient w req y).st.brewOn = false ∨
      ((handleClient w req y).st.brewOn = true ∧
        sub32 (millis (handleClient w req y)) (handleClient w req y).st.brewOnSince < 2400000)) :
    (loop w req y).st.brewOn = (handleClient w req y).st.brewOn ∧
    (loop w req y).st.brewOnSince = (handleClient w req y).st.brewOnSince ∧
    loop w req y = handleClient w req y := by
  have key : loop w req y = handleClient w req y := by
    unfold loop
    apply autoOffCheck_idle
    rcases h with h | ⟨_, h⟩
    · exact Or.inl h
    · exact Or.inr (Or.inr (by omega))
  rw [key]
  exact ⟨rfl, rfl, rfl⟩

/-- C2 at a concrete input: brewing since 1000 ms, checked at 2400999 ms. -/
theorem C2_autoOff_noop_witness :
    sub32 (millis (handleClient World.quiet none (Sys.brewing 1000 2400999))) 1000 < 2400000 ∧
    (loop World.quiet none (Sys.brewing 1000 2400999)).st.brewOn = true ∧
    (loop World.quiet none (Sys.brewing 1000 2400999)).st.brewOnSince = 1000 :=
  have h := C2_autoOff_noop World.quiet none (Sys.brewing 1000 2400999)
    (Or.inr ⟨by decide, by decide⟩)
  ⟨by decide, h.1.trans (by decide), h.2.1.trans (by decide)⟩

/-! ### The invariant of the appliance state -/

theorem invariant_boot : Invariant State.boot := by decide

theorem invariant_autoOffCheck (y : Sys) (h : Invariant y.st) : Invariant (autoOffCheck y).st := by
  by_cases hf : y.st.brewOn = true ∧ 0 < y.st.brewOnSince ∧
      2400000 < sub32 (millis y) y.st.brewOnSince
  · rw [autoOffCheck_fires y hf.1 hf.2.1 hf.2.2]
    simp [Invariant]
  · rw [autoOffCheck_idle y]
    · exact h
    · cases hb : y.st.brewOn
      · exact Or.inl rfl
      · simp only [hb, true_and] at hf
        omega

theorem handlePress_st (w : World) (y : Sys) :
    (handlePress w y).st =
      { y.st with brewOn := !y.st.brewOn, brewOnSince := if !y.st.brewOn then millis y else 0 } := by
  simp [handlePress, emit, delay, serialPrint, millis]

theorem invariant_handlePress_of_millis_ne_zero (w : World) (y : Sys) (h : millis y ≠ 0) :
    Invariant (handlePress w y).st := by
  rw [handlePress_st]
  cases hb : y.st.brewOn <;> simp [Invariant, h]

/-- C3, evaluated where it fails: a press served when `millis()` returns 0 (the clock at
`2 ^ 32` ms, the first rollover) starts from a state that satisfies the invariant and leaves
`brewOn = true` with `brewOnSince = 0`, which breaks it; from then on the auto-off check of
`loop` is skipped at every clock value, so `brewOn` stays true. -/
theorem C3_press_at_millis_zero_breaks_invariant :
    millis (Sys.idle U32_SIZE) = 0 ∧
    Invariant (Sys.idle U32_SIZE).st ∧
    (handlePress World.quiet (Sys.idle U32_SIZE)).st.brewOn = true ∧
    (handlePress World.quiet (Sys.idle U32_SIZE)).st.brewOnSince = 0 ∧
    ¬ Invariant (handlePress World.quiet (Sys.idle U32_SIZE)).st ∧
    ∀ hw : Hw, ∀ out : List Event,
      (autoOffCheck { st := (handlePress World.quiet (Sys.idle U32_SIZE)).st, hw := hw, out := out }).st.brewOn
        = true := by
  refine ⟨by decide, by decide, by decide, by decide, by decide, ?_⟩
  intro hw out
  have hz : (handlePress World.quiet (Sys.idle U32_SIZE)).st.brewOnSince = 0 := by decide
  have hb : (handlePress World.quiet (Sys.idle U32_SIZE)).st.brewOn = true := by decide
  rw [autoOffCheck_idle
    { st := (handlePress World.quiet (Sys.idle U32_SIZE)).st, hw := hw, out := out }
    (Or.inr (Or.inl hz))]
  exact hb

/-! ### `handlePress` -/

/-- C4: two calls of `handlePress` in a row bring `brewOn` back to the value it had. -/
theorem C4_double_press_restores_brewOn (w : World) (y : Sys) :
    (handlePress w (handlePress w y)).st.brewOn = y.st.brewOn := by
  simp [handlePress_st]

theorem handlePress_out (w : World) (y : Sys) :
    (handlePress w y).out = y.out ++
      [.serial "[RELAY] Simulating button press for 250 ms\n",
        .digitalWrite RELAY_PIN .LOW, .delay 250, .digitalWrite RELAY_PIN .HIGH,
        .sendHeader "Location" "/" true, .send 303 "text/plain" ""] := by
  have h : "[RELAY] Simulating button press for " ++ Nat.repr PRESS_MS ++ " ms\n" =
      "[RELAY] Simulating button press for 250 ms\n" := by decide
  simp only [handlePress, emit, delay, serialPrint, h, List.append_assoc, List.singleton_append,
    List.cons_append, List.nil_append]
  rfl

/-- C5: every call of `handlePress`, from whatever state, acts on the relay line by exactly
write LOW, wait 250 ms, write HIGH, in this order, and leaves the line HIGH. -/
theorem C5_press_pulse (w : World) (y : Sys) :
    (callTrace y (handlePress w y)).filter isRelayAction =
      [.digitalWrite RELAY_PIN .LOW, .delay 250, .digitalWrite RELAY_PIN .HIGH] ∧
    ∀ level : Level, lineLevel RELAY_PIN level (callTrace y (handlePress w y)) = .HIGH := by
  have h : callTrace y (handlePress w y) =
      [.serial "[RELAY] Simulating button press for 250 ms\n",
        .digitalWrite RELAY_PIN .LOW, .delay 250, .digitalWrite RELAY_PIN .HIGH,
        .sendHeader "Location" "/" true, .send 303 "text/plain" ""] := by
    simp [callTrace, handlePress_out]
  rw [h]
  refine ⟨by decide, ?_⟩
  intro level
  cases level <;> decide

/-! ### `handleMetrics` -/

theorem snprintf_of_length_le (size : Nat) (text : String) (h : text.length ≤ size - 1) :
    snprintf size text = text := by
  cases text with
  | mk cs =>
    simp only [String.length] at h
    simp [snprintf, List.take_of_length_le h]

theorem snprintf_length_le (size : Nat) (text : String) : (snprintf size text).length ≤ size - 1 := by
  show (text.data.take (size - 1)).length ≤ size - 1
  exact List.length_take_le _ _

theorem uptimeString_length_le (y : Sys) : (uptimeString y).length ≤ 39 :=
  snprintf_length_le 40 _

theorem metricsJson_length (uptime temp press sensorOk brew : String) :
    (metricsJson uptime temp press sensorOk brew).length =
      63 + uptime.length + temp.length + press.length + sensorOk.length + brew.length := by
  unfold metricsJson
  repeat rw [String.length_append]
  have h1 : "\x7b".length = 1 := rfl
  have h2 : "\"uptime\":\"".length = 10 := rfl
  have h3 : "\",".length = 2 := rfl
  have h4 : "\"temp_c\":".length = 9 := rfl
  have h5 : ",".length = 1 := rfl
  have h6 : "\"pressure_hpa\":".length = 15 := rfl
  have h7 : "\"sensor_ok\":".length = 12 := rfl
  have h8 : "\"brew_on\":".length = 10 := rfl
  have h9 : "\x7d".length = 1 := rfl
  omega

theorem boolText_length_le (b : Bool) : (if b then "true" else "false").length ≤ 5 := by
  cases b <;> decide

theorem metricsBody_unfold (w : World) (y : Sys) :
    metricsBody w y =
      snprintf 256
        (metricsJson (uptimeString y)
          (if y.st.bmpOk && !isnan (readBmp w y).1 then w.floatStr (readBmp w y).1 2 else "null")
          (if y.st.bmpOk && !isnan (readBmp w y).2 then w.floatStr (readBmp w y).2 2 else "null")
          (if y.st.bmpOk then "true" else "false")
          (if y.st.brewOn then "true" else "false")) := rfl

/-- The buffer of `handleMetrics` is not cut short when both value fields fit in 43 characters. -/
theorem metricsBody_of_fields_fit (y : Sys) (temp press : String)
    (ht : temp.length ≤ 43) (hp : press.length ≤ 43) (sensorOk brew : Bool) :
    snprintf 256
        (metricsJson (uptimeString y) temp press (if sensorOk then "true" else "false")
          (if brew then "true" else "false")) =
      metricsJson (uptimeString y) temp press (if sensorOk then "true" else "false")
        (if brew then "true" else "false") := by
  apply snprintf_of_length_le
  rw [metricsJson_length]
  have h1 := uptimeString_length_le y
  have h2 := boolText_length_le sensorOk
  have h3 := boolText_length_le brew
  omega

theorem nullText_length : "null".length ≤ 43 := by decide

theorem handleMetrics_st (w : World) (y : Sys) : (handleMetrics w y).st = y.st := rfl

theorem handleMetrics_out (w : World) (y : Sys) :
    (handleMetrics w y).out = y.out ++ [.send 200 "application/json" (metricsBody w y)] := rfl

theorem isnan_divConst (x : CFloat) (d : ℚ) : isnan (x.divConst d) = isnan x := by
  cases x <;> rfl

theorem readBmp_of_not_ok (w : World) (y : Sys) (h : y.st.bmpOk = false) :
    readBmp w y = (.nan, .nan) := by
  simp [readBmp, h]

theorem readBmp_of_ok (w : World) (y : Sys) (h : y.st.bmpOk = true) :
    readBmp w y = (w.readTemperature y.hw.clock, (w.readPressure y.hw.clock).divConst 100) := by
  simp [readBmp, h]

/-- C6, as stated, fails for the sensor that was found at boot but whose reads return NaN,
which the error taxonomy counts as unavailable too: `handleMetrics` sends `null` for both
values but `"sensor_ok":true`, not `false`. -/
theorem C6_counterexample :
    (Sys.withBmpOk true (Sys.brewing 1000 7000)).st.bmpOk = true ∧
    isnan (World.failingReads.readTemperature 7000) = true ∧
    isnan (World.failingReads.readPressure 7000) = true ∧
    metricsBody World.failingReads (Sys.withBmpOk true (Sys.brewing 1000 7000)) =
      "\x7b\"uptime\":\"0h 0m 7s\",\"temp_c\":null,\"pressure_hpa\":null,\"sensor_ok\":true,\"brew_on\":true\x7d" ∧
    metricsBody World.failingReads (Sys.withBmpOk true (Sys.brewing 1000 7000)) ≠
      metricsJson (uptimeString (Sys.withBmpOk true (Sys.brewing 1000 7000))) "null" "null" "false"
        "true" := by
  decide

/-- C6, amended: in every sensor-unavailable state, that is with `bmpOk = false` or with both
reads returning NaN, whatever the clock, `brewOn` and the rest of the board answer,
`handleMetrics` sends the format filled with `null` for `temp_c` and `null` for
`pressure_hpa`, never a number; `sensor_ok` reports `bmpOk` itself, so it is `false` in every
state with `bmpOk = false` and `true` when the sensor was found but its reads fail. -/
theorem C6_metrics_sensor_unavailable (w : World) (y : Sys)
    (h : y.st.bmpOk = false ∨
      (isnan (w.readTemperature y.hw.clock) = true ∧ isnan (w.readPressure y.hw.clock) = true)) :
    metricsBody w y =
      metricsJson (uptimeString y) "null" "null" (if y.st.bmpOk then "true" else "false")
        (if y.st.brewOn then "true" else "false") ∧
    (y.st.bmpOk = false →
      metricsBody w y =
        metricsJson (uptimeString y) "null" "null" "false"
          (if y.st.brewOn then "true" else "false")) ∧
    callTrace y (handleMetrics w y) = [.send 200 "application/json" (metricsBody w y)] := by
  have hoff : y.st.bmpOk = false →
      metricsBody w y =
        metricsJson (uptimeString y) "null" "null" "false"
          (if y.st.brewOn then "true" else "false") := by
    intro hb
    rw [metricsBody_unfold]
    simp only [hb, Bool.false_and, Bool.false_eq_true, if_false]
    exact metricsBody_of_fields_fit y "null" "null" nullText_length nullText_length false _
  refine ⟨?_, hoff, ?_⟩
  · cases hb : y.st.bmpOk with
    | false =>
      rw [hoff hb]
      simp
    | true =>
      rcases h with h | ⟨ht, hp⟩
      · rw [hb] at h
        exact Bool.noConfusion h
      · have hp2 : isnan ((w.readPressure y.hw.clock).divConst 100) = true := by
          rw [isnan_divConst]; exact hp
        rw [metricsBody_unfold, readBmp_of_ok w y hb]
        simp only [hb, ht, hp2, Bool.not_true, Bool.and_false, Bool.false_eq_true, if_false,
          if_true]
        exact metricsBody_of_fields_fit y "null" "null" nullText_length nullText_length true _
  · simp [callTrace, handleMetrics_out]

/-- C6 (amended) at concrete inputs: the boot state five seconds after power-up, and a sensor
found at boot whose reads return NaN. -/
theorem C6_metrics_sensor_unavailable_witness :
    (Sys.boot 5000).st.bmpOk = false ∧
    metricsBody World.quiet (Sys.boot 5000) =
      "\x7b\"uptime\":\"0h 0m 5s\",\"temp_c\":null,\"pressure_hpa\":null,\"sensor_ok\":false,\"brew_on\":false\x7d" ∧
    metricsBody World.failingReads (Sys.withBmpOk true (Sys.idle 5000)) =
      "\x7b\"uptime\":\"0h 0m 5s\",\"temp_c\":null,\"pressure_hpa\":null,\"sensor_ok\":true,\"brew_on\":false\x7d" :=
  ⟨rfl,
    ((C6_metrics_sensor_unavailable World.quiet (Sys.boot 5000) (Or.inl rfl)).2.1 rfl).trans
      (by decide),
    (C6_metrics_sensor_unavailable World.failingReads (Sys.withBmpOk true (Sys.idle 5000))
      (Or.inr ⟨rfl, rfl⟩)).1.trans (by decide)⟩

/-! ### A failed read next to a sensor that was never found -/

theorem tempValueHtml_of_nan (w : World) (bmpOk : Bool) (temp : CFloat) (h : isnan temp = true) :
    tempValueHtml w bmpOk temp = "<div id='tempValue' class='gauge-value'>-- &deg;C</div>" := by
  simp [tempValueHtml, h]

theorem pressValueHtml_of_nan (w : World) (bmpOk : Bool) (press : CFloat)
    (h : isnan press = true) :
    pressValueHtml w bmpOk press = "<div id='pressValue' class='gauge-value'>-- hPa</div>" := by
  simp [pressValueHtml, h]

theorem differsOnlyIn_base (pre s t : String) : DiffersOnlyIn (pre ++ s) (pre ++ t) s t :=
  ⟨pre, "", by simp, by simp⟩

theorem differsOnlyIn_append (a b s t x : String) (h : DiffersOnlyIn a b s t) :
    DiffersOnlyIn (a ++ x) (b ++ x) s t := by
  obtain ⟨pre, post, ha, hb⟩ := h
  exact ⟨pre, post ++ x, by rw [ha, String.append_assoc], by rw [hb, String.append_assoc]⟩

/-- C7, as stated, fails: with the sensor found at boot and both reads returning NaN,
`handleMetrics` sends `"sensor_ok":true` where the never-found sensor gives
`"sensor_ok":false`, and `handleRoot` emits the hidden status line where the never-found
sensor gets the visible one. -/
theorem C7_counterexample :
    isnan (World.failingReads.readTemperature 5000) = true ∧
    isnan (World.failingReads.readPressure 5000) = true ∧
    metricsBody World.failingReads (Sys.withBmpOk true (Sys.idle 5000)) =
      "\x7b\"uptime\":\"0h 0m 5s\",\"temp_c\":null,\"pressure_hpa\":null,\"sensor_ok\":true,\"brew_on\":false\x7d" ∧
    metricsBody World.failingReads (Sys.withBmpOk false (Sys.idle 5000)) =
      "\x7b\"uptime\":\"0h 0m 5s\",\"temp_c\":null,\"pressure_hpa\":null,\"sensor_ok\":false,\"brew_on\":false\x7d" ∧
    metricsBody World.failingReads (Sys.withBmpOk true (Sys.idle 5000)) ≠
      metricsBody World.failingReads (Sys.withBmpOk false (Sys.idle 5000)) ∧
    sensorStatusHtml (Sys.withBmpOk true (Sys.idle 5000)).st.bmpOk ≠
      sensorStatusHtml (Sys.withBmpOk false (Sys.idle 5000)).st.bmpOk := by
  decide

/-- C7, amended: with `bmpOk = true` and both reads returning NaN, the value fields are
those of the state with `bmpOk = false`, all else equal: `handleMetrics` sends `null` for
`temp_c` and `pressure_hpa`, and the page of `handleRoot` carries the `--` lines. The two
outputs differ only in what reports `bmpOk` itself: `sensor_ok` is `true` instead of `false`,
and the status line is the hidden one instead of the visible one. -/
theorem C7_failed_read_values_as_uninitialised (w : World) (y : Sys) (hok : y.st.bmpOk = true)
    (ht : isnan (w.readTemperature y.hw.clock) = true)
    (hp : isnan (w.readPressure y.hw.clock) = true) :
    metricsBody w y =
      metricsJson (uptimeString y) "null" "null" "true" (if y.st.brewOn then "true" else "false") ∧
    metricsBody w (Sys.withBmpOk false y) =
      metricsJson (uptimeString y) "null" "null" "false" (if y.st.brewOn then "true" else "false") ∧
    tempValueHtml w y.st.bmpOk (readBmp w y).1 =
      tempValueHtml w false (readBmp w (Sys.withBmpOk false y)).1 ∧
    pressValueHtml w y.st.bmpOk (readBmp w y).2 =
      pressValueHtml w false (readBmp w (Sys.withBmpOk false y)).2 ∧
    DiffersOnlyIn (rootHtml w y) (rootHtml w (Sys.withBmpOk false y))
      "<p id='sensorStatus' class='sensor-status' style='display:none;'>Sensor error</p>"
      "<p id='sensorStatus' class='sensor-status'>Sensor error (BMP280 not detected)</p>" := by
  have hp2 : isnan ((w.readPressure y.hw.clock).divConst 100) = true := by
    rw [isnan_divConst]; exact hp
  have hr : readBmp w y = (w.readTemperature y.hw.clock, (w.readPressure y.hw.clock).divConst 100) :=
    readBmp_of_ok w y hok
  have hr0 : readBmp w (Sys.withBmpOk false y) = (.nan, .nan) := readBmp_of_not_ok w _ rfl
  refine ⟨?_, ?_, ?_, ?_, ?_⟩
  · rw [metricsBody_unfold, hr]
    simp only [hok, ht, hp2, Bool.not_true, Bool.and_false, Bool.false_eq_true, if_false, if_true]
    exact metricsBody_of_fields_fit y "null" "null" nullText_length nullText_length true _
  · rw [metricsBody_unfold, hr0]
    exact metricsBody_of_fields_fit (Sys.withBmpOk false y) "null" "null" nullText_length
      nullText_length false _
  · rw [hr, hr0, tempValueHtml_of_nan w _ _ ht, tempValueHtml_of_nan w false .nan rfl]
  · rw [hr, hr0, pressValueHtml_of_nan w _ _ hp2, pressValueHtml_of_nan w false .nan rfl]
  · unfold rootHtml
    rw [hr, hr0]
    have hu : uptimeString (Sys.withBmpOk false y) = uptimeString y := rfl
    rw [hu]
    simp only [Sys.withBmpOk, hok, sensorStatusHtml, tempValueHtml_of_nan w true _ ht,
      pressValueHtml_of_nan w true _ hp2, tempValueHtml_of_nan w false .nan rfl,
      pressValueHtml_of_nan w false .nan rfl, Bool.not_true, Bool.not_false, Bool.false_eq_true,
      if_false, if_true]
    repeat apply differsOnlyIn_append
    exact differsOnlyIn_base _ _ _

/-- C7 (amended) at a concrete input: sensor found at boot, both reads NaN. -/
theorem C7_failed_read_values_witness :
    (Sys.withBmpOk true (Sys.idle 5000)).st.bmpOk = true ∧
    isnan (World.failingReads.readTemperature 5000) = true ∧
    isnan (World.failingReads.readPressure 5000) = true ∧
    metricsBody World.failingReads (Sys.withBmpOk true (Sys.idle 5000)) =
      metricsJson (uptimeString (Sys.withBmpOk true (Sys.idle 5000))) "null" "null" "true" "false" :=
  ⟨rfl, rfl, rfl,
    (C7_failed_read_values_as_uninitialised World.failingReads (Sys.withBmpOk true (Sys.idle 5000))
      rfl rfl rfl).1⟩

/-! ### Which handlers write the globals -/

theorem dispatch_st_of_ne_press (w : World) (r : Request) (y : Sys) (h : r ≠ .press) :
    (dispatch w r y).st = y.st := by
  cases r with
  | press => exact absurd rfl h
  | root => rfl
  | metrics => rfl
  | notFound => rfl

theorem handlePress_st_ne (w : World) (y : Sys) : (handlePress w y).st ≠ y.st := by
  intro h
  have hb := congrArg State.brewOn h
  rw [handlePress_st] at hb
  cases hy : y.st.brewOn <;> simp [hy] at hb

/-- C8: serving any sequence of requests other than a press (`GET /`, `GET /metrics` and
unmatched routes), at any times, leaves all five globals `clientMode`, `bmpOk`, `brewOn`,
`brewOnSince`, `bootMillis` as they were, while every call of `handlePress` changes them. -/
theorem C8_only_press_writes_state (w : World) (reqs : List (Nat × Request)) (y : Sys)
    (h : ∀ p ∈ reqs, p.2 ≠ Request.press) :
    (serveAll w reqs y).st = y.st ∧
    (handleRoot w y).st = y.st ∧ (handleMetrics w y).st = y.st ∧
    (handlePress w y).st ≠ y.st := by
  refine ⟨?_, rfl, rfl, handlePress_st_ne w y⟩
  induction reqs generalizing y with
  | nil => rfl
  | cons p rest ih =>
    obtain ⟨ms, r⟩ := p
    have hr : r ≠ Request.press := h (ms, r) (List.mem_cons_self _ _)
    have hrest : ∀ q ∈ rest, q.2 ≠ Request.press := fun q hq => h q (List.mem_cons_of_mem _ hq)
    show (serveAll w rest (dispatch w r (advance ms y))).st = y.st
    rw [ih _ hrest, dispatch_st_of_ne_press w r _ hr]
    rfl

/-- C8 at a concrete input: one page request and two metrics requests while brewing. -/
theorem C8_only_press_writes_state_witness :
    (serveAll World.quiet [(100, Request.root), (2500, Request.metrics), (2500, Request.metrics)]
      (Sys.brewing 1000 5000)).st = (Sys.brewing 1000 5000).st :=
  (C8_only_press_writes_state World.quiet
    [(100, Request.root), (2500, Request.metrics), (2500, Request.metrics)]
    (Sys.brewing 1000 5000) (by decide)).1

/-! ### A press followed by a metrics request -/

theorem metricsJson_contains_brew_on (u t p o : String) :
    Contains (metricsJson u t p o "true") "\"brew_on\":true" := by
  refine ⟨"\x7b" ++ "\"uptime\":\"" ++ u ++ "\"," ++ "\"temp_c\":" ++ t ++ "," ++
    "\"pressure_hpa\":" ++ p ++ "," ++ "\"sensor_ok\":" ++ o ++ ",", "\x7d", ?_⟩
  have h : "\"brew_on\":true" = "\"brew_on\":" ++ "true" := by decide
  rw [h, ← String.append_assoc]
  rfl

theorem metricsBody_of_float_fits (w : World) (y : Sys)
    (hfmt : ∀ x : CFloat, (w.floatStr x 2).length ≤ 43) :
    metricsBody w y =
      metricsJson (uptimeString y)
        (if y.st.bmpOk && !isnan (readBmp w y).1 then w.floatStr (readBmp w y).1 2 else "null")
        (if y.st.bmpOk && !isnan (readBmp w y).2 then w.floatStr (readBmp w y).2 2 else "null")
        (if y.st.bmpOk then "true" else "false")
        (if y.st.brewOn then "true" else "false") := by
  rw [metricsBody_unfold]
  apply metricsBody_of_fields_fit
  · split
    · exact hfmt _
    · exact nullText_length
  · split
    · exact hfmt _
    · exact nullText_length

/-- C10: from every state with `brewOn = false`, `handlePress` answers with the header
`Location: /` and status 303 with an empty body, and a `handleMetrics` call on the globals it
left (no auto-off and no further press in between), at any later time, sends a body that
contains `"brew_on":true`. The conversion `String(value, 2)` is taken to give at most 43
characters, the size of the buffer it writes to. -/
theorem C10_press_then_metrics (w : World) (y : Sys) (hoff : y.st.brewOn = false)
    (hfmt : ∀ x : CFloat, (w.floatStr x 2).length ≤ 43) :
    (callTrace y (handlePress w y)).filter isResponse =
      [.sendHeader "Location" "/" true, .send 303 "text/plain" ""] ∧
    ∀ later : Sys, later.st = (handlePress w y).st →
      Contains (metricsBody w later) "\"brew_on\":true" ∧
      callTrace later (handleMetrics w later) =
        [.send 200 "application/json" (metricsBody w later)] := by
  constructor
  · have h : callTrace y (handlePress w y) =
        [.serial "[RELAY] Simulating button press for 250 ms\n",
          .digitalWrite RELAY_PIN .LOW, .delay 250, .digitalWrite RELAY_PIN .HIGH,
          .sendHeader "Location" "/" true, .send 303 "text/plain" ""] := by
      simp [callTrace, handlePress_out]
    rw [h]
    decide
  · intro later hl
    have hb : later.st.brewOn = true := by
      rw [hl, handlePress_st]
      simp [hoff]
    constructor
    · rw [metricsBody_of_float_fits w later hfmt]
      simp only [hb, if_true]
      exact metricsJson_contains_brew_on _ _ _ _
    · simp [callTrace, handleMetrics_out]

/-- C10 at a concrete input: a press on the idle appliance, metrics 2.5 s later. -/
theorem C10_press_then_metrics_witness :
    (Sys.idle 5000).st.brewOn = false ∧
    (callTrace (Sys.idle 5000) (handlePress World.quiet (Sys.idle 5000))).filter isResponse =
      [.sendHeader "Location" "/" true, .send 303 "text/plain" ""] ∧
    Contains (metricsBody World.quiet (advance 2500 (handlePress World.quiet (Sys.idle 5000))))
      "\"brew_on\":true" :=
  have h := C10_press_then_metrics World.quiet (Sys.idle 5000) rfl
    (fun _ => (by decide : "0.0".length ≤ 43))
  ⟨rfl, h.1, (h.2 (advance 2500 (handlePress World.quiet (Sys.idle 5000))) rfl).1⟩

/-! ### Network bring-up -/

theorem U32_SIZE_eq : U32_SIZE = 4294967296 := by decide

theorem sub32_of_le (c c0 : Nat) (h : c0 ≤ c) (hlt : c - c0 < U32_SIZE) :
    sub32 (c % U32_SIZE) (c0 % U32_SIZE) = c - c0 := by
  unfold sub32
  rw [U32_SIZE_eq] at *
  omega

theorem connectLoop_terminates (w : World) (T c0 : Nat)
    (hnever : ∀ n, w.wifiConnected n = false)
    (hlag : ∀ n, 500 + w.lag n ≤ U32_SIZE - T) :
    ∀ (n : Nat) (y : Sys), c0 ≤ y.hw.clock → y.hw.clock - c0 < U32_SIZE →
      T ≤ (y.hw.clock - c0) + 500 * n →
      ∃ k clock, k ≤ n ∧ ∀ fuel, n < fuel →
        connectLoop w (c0 % U32_SIZE) T fuel y =
          some { st := y.st
                 hw := { clock := clock, delays := y.hw.delays + k, polls := y.hw.polls + k + 1 }
                 out := y.out ++ loopTrace k } := by
  intro n
  induction n with
  | zero =>
    intro y hle hlt hT
    refine ⟨0, y.hw.clock, le_refl _, ?_⟩
    intro fuel hfuel
    obtain ⟨f, rfl⟩ : ∃ f, fuel = f + 1 := ⟨fuel - 1, by omega⟩
    have hs : ¬ sub32 (y.hw.clock % U32_SIZE) (c0 % U32_SIZE) < T := by
      rw [sub32_of_le _ _ hle hlt]; omega
    simp [connectLoop, wifiStatusConnected, hnever, millis, hs, loopTrace]
  | succ n ih =>
    intro y hle hlt hT
    by_cases hs : sub32 (y.hw.clock % U32_SIZE) (c0 % U32_SIZE) < T
    · have he : y.hw.clock - c0 < T := by rw [sub32_of_le _ _ hle hlt] at hs; exact hs
      have hl := hlag y.hw.delays
      obtain ⟨k, clock, hk, hrun⟩ := ih
        (serialPrint "." (delay w 500
          { y with hw := { y.hw with polls := y.hw.polls + 1 } }))
        (by simp [serialPrint, emit, delay]; omega)
        (by simp [serialPrint, emit, delay]; omega)
        (by simp [serialPrint, emit, delay]; omega)
      refine ⟨k + 1, clock, by omega, ?_⟩
      intro fuel hfuel
      obtain ⟨f, rfl⟩ : ∃ f, fuel = f + 1 := ⟨fuel - 1, by omega⟩
      have hf : n < f := by omega
      simp only [connectLoop, wifiStatusConnected, hnever, millis, hs, Bool.not_false,
        Bool.true_and, decide_True, if_true]
      rw [hrun f hf]
      simp [serialPrint, emit, delay, loopTrace]
      omega
    · refine ⟨0, y.hw.clock, Nat.zero_le _, ?_⟩
      intro fuel hfuel
      obtain ⟨f, rfl⟩ : ∃ f, fuel = f + 1 := ⟨fuel - 1, by omega⟩
      simp [connectLoop, wifiStatusConnected, hnever, millis, hs, loopTrace]

theorem connectAsClient_never_connected (w : World) (T : Nat) (y : Sys)
    (hnever : ∀ n, w.wifiConnected n = false)
    (hlag : ∀ n, 500 + w.lag n ≤ U32_SIZE - T) :
    ∃ k clock, k ≤ (T + 499) / 500 ∧ ∀ fuel, (T + 499) / 500 < fuel →
      connectAsClientWithTimeout w T fuel y =
        some (false,
          { st := y.st
            hw := { clock := clock, delays := y.hw.delays + k, polls := y.hw.polls + k + 2 }
            out := y.out ++
              [.serial "[WiFi] Trying STA mode...\r\n", .wifiMode .WIFI_STA, .wifiSetTxPower,
                .wifiBegin STA_SSID STA_PASS, .wifiSetSleep true] ++
              loopTrace k ++
              [.serial "\r\n",
                .serial
                  "[WiFi] Client mode connection timed out, starting smart_coffee access point.\r\n",
                .wifiDisconnect true true] }) := by
  have hT : T % U32_SIZE = T := by
    have := hlag 0
    apply Nat.mod_eq_of_lt
    rw [U32_SIZE_eq] at *
    omega
  obtain ⟨k, clock, hk, hrun⟩ := connectLoop_terminates w T y.hw.clock hnever hlag
    ((T + 499) / 500)
    (emit (.wifiSetSleep true) (emit (.wifiBegin STA_SSID STA_PASS) (emit .wifiSetTxPower
      (emit (.wifiMode .WIFI_STA) (serialPrintln "[WiFi] Trying STA mode..." y)))))
    (le_refl _) (by simp [emit, serialPrintln, U32_SIZE_eq]) (by simp [emit, serialPrintln]; omega)
  refine ⟨k, clock, hk, ?_⟩
  intro fuel hfuel
  have h := hrun fuel hfuel
  simp only [emit, serialPrintln] at h
  simp only [connectAsClientWithTimeout, hT, millis, emit, serialPrintln, h,
    wifiStatusConnected, hnever]
  have e1 : "[WiFi] Trying STA mode..." ++ "\r\n" = "[WiFi] Trying STA mode...\r\n" := by decide
  have e2 : "" ++ "\r\n" = "\r\n" := by decide
  have e3 : "[WiFi] Client mode connection timed out, starting smart_coffee access point." ++
      "\r\n" =
      "[WiFi] Client mode connection timed out, starting smart_coffee access point.\r\n" := by
    decide
  simp [e1, e2, e3]

theorem countP_loopTrace (k : Nat) : (loopTrace k).countP isAccessPointStart = 0 := by
  induction k with
  | zero => rfl
  | succ k ih => simp [loopTrace, isAccessPointStart, ih]

theorem foldl_loopTrace (k : Nat) (m : Option WifiMode) :
    (loopTrace k).foldl wifiModeStep m = m := by
  induction k with
  | zero => rfl
  | succ k ih => simp [loopTrace, wifiModeStep, ih]

theorem setupSensor_spec (w : World) (y : Sys) :
    ∃ tr, (setupSensor w y).out = y.out ++ tr ∧ tr.countP isAccessPointStart = 0 ∧
      (∀ m, tr.foldl wifiModeStep m = m) ∧ (setupSensor w y).hw = y.hw ∧
      (setupSensor w y).st.clientMode = y.st.clientMode := by
  unfold setupSensor
  by_cases h76 : w.bmpFound 0x76 = true
  · exact ⟨_, by simp [h76, emit, serialPrintln]; rfl, by simp [isAccessPointStart],
      by simp [wifiModeStep], by simp [h76, emit, serialPrintln],
      by simp [h76, emit, serialPrintln]⟩
  · by_cases h77 : w.bmpFound 0x77 = true
    · exact ⟨_, by simp [h76, h77, emit, serialPrintln]; rfl, by simp [isAccessPointStart],
        by simp [wifiModeStep], by simp [h76, h77, emit, serialPrintln],
        by simp [h76, h77, emit, serialPrintln]⟩
    · exact ⟨_, by simp [h76, h77, emit, serialPrintln]; rfl, by simp [isAccessPointStart],
        by simp [wifiModeStep], by simp [h76, h77, emit, serialPrintln],
        by simp [h76, h77, emit, serialPrintln]⟩

theorem startAccessPoint_spec (w : World) (y : Sys) :
    ∃ tr, (startAccessPoint w y).out = y.out ++ tr ∧ tr.countP isAccessPointStart = 1 ∧
      (∀ m, tr.foldl wifiModeStep m = some .WIFI_AP) ∧ (startAccessPoint w y).st = y.st := by
  unfold startAccessPoint
  by_cases hok : w.softAPOk = true
  · exact ⟨_, by simp [hok, emit, serialPrintln, serialPrint]; rfl, by simp [isAccessPointStart],
      by simp [wifiModeStep], by simp [hok, emit, serialPrintln, serialPrint]⟩
  · exact ⟨_, by simp [hok, emit, serialPrintln, serialPrint]; rfl, by simp [isAccessPointStart],
      by simp [wifiModeStep], by simp [hok, emit, serialPrintln, serialPrint]⟩

theorem setupServer_spec (w : World) (y : Sys) :
    ∃ tr, (setupServer w y).out = y.out ++ tr ∧ tr.countP isAccessPointStart = 0 ∧
      (∀ m, tr.foldl wifiModeStep m = m) ∧ (setupServer w y).st = y.st := by
  unfold setupServer
  by_cases hok : w.mdnsOk = true
  · exact ⟨_, by simp [hok, emit, serialPrintln, serialPrint]; rfl, by simp [isAccessPointStart],
      by simp [wifiModeStep], by simp [hok, emit, serialPrintln, serialPrint]⟩
  · exact ⟨_, by simp [hok, emit, serialPrintln, serialPrint]; rfl, by simp [isAccessPointStart],
      by simp [wifiModeStep], by simp [hok, emit, serialPrintln, serialPrint]⟩

theorem connectLoop_quiet_never_returns (fuel : Nat) :
    ∀ y : Sys, y.hw.clock % 4 = 0 → connectLoop World.quiet 0 4294967295 fuel y = none := by
  induction fuel with
  | zero => intro y _; rfl
  | succ f ih =>
    intro y hy
    have hs : sub32 (y.hw.clock % U32_SIZE) 0 < 4294967295 := by
      unfold sub32
      rw [U32_SIZE_eq]
      omega
    simp only [connectLoop, wifiStatusConnected, World.quiet, millis, hs, Bool.not_false,
      Bool.true_and, decide_True, if_true]
    apply ih
    simp [serialPrint, emit, delay]
    omega

/-- C9, as stated, fails for a timeout of 4294967295 ms: with Wi-Fi never connected and every
`delay(500)` taking exactly 500 ms, the wrapped elapsed time `millis() - start` only takes
multiples of 4, never reaches the timeout, and `connectAsClientWithTimeout` returns with no
amount of fuel. -/
theorem C9_counterexample :
    (∀ n, World.quiet.wifiConnected n = false) ∧
    (∀ n, World.quiet.lag n = 0) ∧
    ¬ ∃ fuel, (connectAsClientWithTimeout World.quiet 4294967295 fuel (Sys.boot 0)).isSome = true := by
  refine ⟨fun _ => rfl, fun _ => rfl, ?_⟩
  rintro ⟨fuel, h⟩
  have hloop := connectLoop_quiet_never_returns fuel
    (emit (.wifiSetSleep true) (emit (.wifiBegin STA_SSID STA_PASS) (emit .wifiSetTxPower
      (emit (.wifiMode .WIFI_STA) (serialPrintln "[WiFi] Trying STA mode..." (Sys.boot 0))))))
    rfl
  have hT : 4294967295 % U32_SIZE = 4294967295 := by decide
  have hstart : millis (emit (.wifiSetSleep true) (emit (.wifiBegin STA_SSID STA_PASS)
      (emit .wifiSetTxPower (emit (.wifiMode .WIFI_STA)
        (serialPrintln "[WiFi] Trying STA mode..." (Sys.boot 0)))))) = 0 := by decide
  simp only [connectAsClientWithTimeout, hT, hstart, hloop] at h
  exact absurd h (by decide)

theorem setupBoard_spec (w : World) (y : Sys) :
    ∃ tr, (setupBoard w y).out = y.out ++ tr ∧ tr.countP isAccessPointStart = 0 ∧
      (∀ m, tr.foldl wifiModeStep m = m) := by
  unfold setupBoard
  exact ⟨_, by simp [emit, serialPrintln, delay]; rfl, by simp [isAccessPointStart],
    by simp [wifiModeStep]⟩

theorem getLast?_append_three {α : Type} (l : List α) (a b c : α) :
    (l ++ [a, b, c]).getLast? = some c := by
  rw [show l ++ [a, b, c] = (l ++ [a, b]) ++ [c] by simp]
  exact List.getLast?_concat _

/-- C9, amended: if the Wi-Fi status never reports connected and every `delay(500)` advances
the clock by at least 500 ms and by no more than `2 ^ 32 - timeout` ms, then
`connectAsClientWithTimeout(timeout)` returns `false` with any fuel above `ceil(timeout / 500)`,
after at most `ceil(timeout / 500)` passes of its loop (that many `delay(500)` calls and at most
two more `WiFi.status()` calls), with `WiFi.disconnect(true, true)` as its last call and the
globals untouched; and when the same holds for the 60000 ms that `setup`
passes, `setup` returns with `clientMode = false`, exactly one `WiFi.softAP` call and the
access-point mode as the last mode set. -/
theorem C9_fallback_to_access_point (w : World) (timeoutMs : Nat) (y : Sys)
    (hnever : ∀ n, w.wifiConnected n = false)
    (hlag : ∀ n, 500 + w.lag n ≤ U32_SIZE - timeoutMs)
    (hlagSetup : ∀ n, 500 + w.lag n ≤ U32_SIZE - 60000) :
    (∃ r : Sys,
      (∀ fuel, (timeoutMs + 499) / 500 < fuel →
        connectAsClientWithTimeout w timeoutMs fuel y = some (false, r)) ∧
      r.hw.delays - y.hw.delays ≤ (timeoutMs + 499) / 500 ∧
      r.hw.polls - y.hw.polls ≤ (timeoutMs + 499) / 500 + 2 ∧
      r.out.getLast? = some (.wifiDisconnect true true) ∧ r.st = y.st) ∧
    (∃ z : Sys,
      (∀ fuel, 120 < fuel → setup w fuel y = some z) ∧
      z.st.clientMode = false ∧
      (callTrace y z).countP isAccessPointStart = 1 ∧
      lastWifiMode z.out = some .WIFI_AP) := by
  constructor
  · obtain ⟨k, clock, hk, hrun⟩ := connectAsClient_never_connected w timeoutMs y hnever hlag
    refine ⟨_, hrun, ?_, ?_, ?_, rfl⟩
    · simp only [Nat.add_sub_cancel_left]
      exact hk
    · show y.hw.polls + k + 2 - y.hw.polls ≤ (timeoutMs + 499) / 500 + 2
      omega
    · exact getLast?_append_three _ _ _ _
  · obtain ⟨trB, hB, hBc, hBm⟩ := setupBoard_spec w y
    obtain ⟨trS, hS, hSc, hSm, -, -⟩ := setupSensor_spec w (setupBoard w y)
    obtain ⟨k, clock, hk, hrun⟩ :=
      connectAsClient_never_connected w 60000 (setupSensor w (setupBoard w y)) hnever hlagSetup
    generalize hR : ({ st := (setupSensor w (setupBoard w y)).st
                       hw := { clock := clock, delays := (setupSensor w (setupBoard w y)).hw.delays + k,
                               polls := (setupSensor w (setupBoard w y)).hw.polls + k + 2 }
                       out := (setupSensor w (setupBoard w y)).out ++
                         [.serial "[WiFi] Trying STA mode...\r\n", .wifiMode .WIFI_STA, .wifiSetTxPower,
                           .wifiBegin STA_SSID STA_PASS, .wifiSetSleep true] ++
                         loopTrace k ++
                         [.serial "\r\n",
                           .serial
                             "[WiFi] Client mode connection timed out, starting smart_coffee access point.\r\n",
                           .wifiDisconnect true true] } : Sys) = r at hrun
    obtain ⟨trC, hC, hCc, hCm, hCs⟩ :=
      startAccessPoint_spec w { r with st := { r.st with clientMode := false } }
    obtain ⟨trD, hD, hDc, hDm, hDs⟩ :=
      setupServer_spec w (startAccessPoint w { r with st := { r.st with clientMode := false } })
    have hout : (setupServer w
        (startAccessPoint w { r with st := { r.st with clientMode := false } })).out =
        y.out ++ (trB ++ trS ++
          ([.serial "[WiFi] Trying STA mode...\r\n", .wifiMode .WIFI_STA, .wifiSetTxPower,
            .wifiBegin STA_SSID STA_PASS, .wifiSetSleep true] ++
          loopTrace k ++
          [.serial "\r\n",
            .serial
              "[WiFi] Client mode connection timed out, starting smart_coffee access point.\r\n",
            .wifiDisconnect true true]) ++ trC ++ trD) := by
      rw [hD, hC]
      subst hR
      simp only [hS, hB, List.append_assoc]
    refine ⟨setupServer w (startAccessPoint w { r with st := { r.st with clientMode := false } }),
      ?_, ?_, ?_, ?_⟩
    · intro fuel hfuel
      simp only [setup, setupNetwork]
      rw [hrun fuel hfuel]
      rfl
    · rw [hDs, hCs]
    · unfold callTrace
      rw [hout, List.drop_left]
      simp [List.countP_append, hBc, hSc, hCc, hDc, countP_loopTrace, isAccessPointStart]
    · unfold lastWifiMode
      rw [hout]
      simp only [List.foldl_append, hDm, hCm]

/-- C9 (amended) at a concrete input: no network in reach, exact delays, the 60000 ms of `setup`. -/
theorem C9_fallback_to_access_point_witness :
    (∀ n, World.quiet.wifiConnected n = false) ∧
    (∀ n, 500 + World.quiet.lag n ≤ U32_SIZE - 60000) ∧
    ∃ z : Sys,
      (∀ fuel, 120 < fuel → setup World.quiet fuel (Sys.boot 0) = some z) ∧
      z.st.clientMode = false ∧
      (callTrace (Sys.boot 0) z).countP isAccessPointStart = 1 ∧
      lastWifiMode z.out = some .WIFI_AP :=
  ⟨fun _ => rfl, fun _ => (by decide : 500 + 0 ≤ U32_SIZE - 60000),
    (C9_fallback_to_access_point World.quiet 60000 (Sys.boot 0) (fun _ => rfl)
      (fun _ => (by decide : 500 + 0 ≤ U32_SIZE - 60000))
      (fun _ => (by decide : 500 + 0 ≤ U32_SIZE - 60000))).2⟩

/-! ### The uptime text -/

theorem renderHMS_length_le (T : Nat) (h : T < 4294968) : (renderHMS T).length ≤ 13 := by
  unfold renderHMS
  repeat rw [String.length_append]
  have h1 : (Nat.repr (T / 3600)).length ≤ 4 :=
    Nat.repr_length _ 4 (by decide) (by norm_num; omega)
  have h2 : (Nat.repr (T / 60 % 60)).length ≤ 2 :=
    Nat.repr_length _ 2 (by decide) (by norm_num; omega)
  have h3 : (Nat.repr (T % 60)).length ≤ 2 :=
    Nat.repr_length _ 2 (by decide) (by norm_num; omega)
  have e1 : "h ".length = 2 := rfl
  have e2 : "m ".length = 2 := rfl
  have e3 : "s".length = 1 := rfl
  omega

theorem uptimeString_eq_renderHMS (y : Sys) : uptimeString y = renderHMS (millis y / 1000) := by
  have hm : millis y < 4294967296 := by
    unfold millis
    rw [U32_SIZE_eq]
    exact Nat.mod_lt _ (by decide)
  have hT : millis y / 1000 < 4294968 := by omega
  have e1 : toUnsigned (millis y / 1000 / 60 / 60) = millis y / 1000 / 3600 := by
    unfold toUnsigned
    rw [U32_SIZE_eq, Nat.div_div_eq_div_mul]
    apply Nat.mod_eq_of_lt
    omega
  have e2 : toUnsigned (millis y / 1000 / 60 % 60) = millis y / 1000 / 60 % 60 := by
    unfold toUnsigned
    rw [U32_SIZE_eq]
    apply Nat.mod_eq_of_lt
    omega
  have e3 : toUnsigned (millis y / 1000 % 60) = millis y / 1000 % 60 := by
    unfold toUnsigned
    rw [U32_SIZE_eq]
    apply Nat.mod_eq_of_lt
    omega
  show snprintf 40 _ = _
  rw [e1, e2, e3]
  apply snprintf_of_length_le
  have := renderHMS_length_le (millis y / 1000) hT
  unfold renderHMS at this
  omega

/-- C11, as stated, fails: with the boot timestamp 1200 ms that `setup` records after its
`delay(1200)` and the clock at 5000 ms, the elapsed time since boot is 3 s, yet `uptimeString`
returns the rendering of 5 s. -/
theorem C11_counterexample :
    (Sys.idle 5000).st.bootMillis = 1200 ∧
    (Sys.idle 5000).st.bootMillis ≤ millis (Sys.idle 5000) ∧
    (millis (Sys.idle 5000) - (Sys.idle 5000).st.bootMillis) / 1000 = 3 ∧
    uptimeSinceBoot (Sys.idle 5000).st.bootMillis (millis (Sys.idle 5000)) = "0h 0m 3s" ∧
    uptimeString (Sys.idle 5000) = "0h 0m 5s" ∧
    uptimeString (Sys.idle 5000) ≠
      uptimeSinceBoot (Sys.idle 5000).st.bootMillis (millis (Sys.idle 5000)) := by
  decide

/-- C11, amended: `uptimeString` is computed from `millis()` alone and does not depend on
`bootMillis`. With `T = millis() / 1000` it returns the decimal fields `H`, `M`, `S` as
`"<H>h <M>m <S>s"`, where `H = T / 3600`, `M = T / 60 % 60 < 60`, `S = T % 60 < 60` and
`H * 3600 + M * 60 + S = T`; the 40-byte buffer never cuts the text. -/
theorem C11_uptime_from_millis (y : Sys) :
    uptimeString y =
      Nat.repr (millis y / 1000 / 3600) ++ "h " ++ Nat.repr (millis y / 1000 / 60 % 60) ++ "m " ++
        Nat.repr (millis y / 1000 % 60) ++ "s" ∧
    millis y / 1000 / 60 % 60 < 60 ∧
    millis y / 1000 % 60 < 60 ∧
    millis y / 1000 / 3600 * 3600 + millis y / 1000 / 60 % 60 * 60 + millis y / 1000 % 60 =
      millis y / 1000 ∧
    ∀ boot : Nat, uptimeString { y with st := { y.st with bootMillis := boot } } = uptimeString y := by
  refine ⟨uptimeString_eq_renderHMS y, ?_, ?_, ?_, fun _ => rfl⟩
  · exact Nat.mod_lt _ (by decide)
  · exact Nat.mod_lt _ (by decide)
  · omega

/-! ### The auto-off timer across the rollover of `millis()` -/

theorem sub32_add_mod (since e : Nat) (hs : since < U32_SIZE) (he : e < U32_SIZE) :
    sub32 ((since + e) % U32_SIZE) since = e := by
  unfold sub32
  rw [U32_SIZE_eq] at *
  omega

/-- C12: when the auto-off check of `loop` is reached with `brewOn` true, a 32-bit timestamp
`brewOnSince > 0` and `millis()` equal to `(brewOnSince + e) mod 2 ^ 32` for a true elapsed
time `e < 2 ^ 32` ms, the unsigned difference `now - brewOnSince` is `e`, whether or not the
counter has wrapped since the press; the check clears `brewOn` and `brewOnSince` if
`e > 2,400,000` and changes nothing otherwise. -/
theorem C12_autoOff_across_rollover (w : World) (req : Option Request) (y : Sys) (e : Nat)
    (hon : (handleClient w req y).st.brewOn = true)
    (hpos : 0 < (handleClient w req y).st.brewOnSince)
    (hsince : (handleClient w req y).st.brewOnSince < 2 ^ 32)
    (he : e < 2 ^ 32)
    (hnow : millis (handleClient w req y) = ((handleClient w req y).st.brewOnSince + e) % 2 ^ 32) :
    sub32 (millis (handleClient w req y)) (handleClient w req y).st.brewOnSince = e ∧
    (2400000 < e →
      (loop w req y).st.brewOn = false ∧ (loop w req y).st.brewOnSince = 0) ∧
    (e ≤ 2400000 → loop w req y = handleClient w req y) ∧
    ((loop w req y).st.brewOn = false ↔ 2400000 < e) := by
  have hsub : sub32 (millis (handleClient w req y)) (handleClient w req y).st.brewOnSince = e := by
    rw [hnow]
    exact sub32_add_mod _ e hsince he
  have hfire : 2400000 < e →
      (loop w req y).st.brewOn = false ∧ (loop w req y).st.brewOnSince = 0 := by
    intro h
    unfold loop
    rw [autoOffCheck_fires _ hon hpos (by rw [hsub]; exact h)]
    exact ⟨rfl, rfl⟩
  have hidle : e ≤ 2400000 → loop w req y = handleClient w req y := by
    intro h
    unfold loop
    exact autoOffCheck_idle _ (Or.inr (Or.inr (by rw [hsub]; exact h)))
  refine ⟨hsub, hfire, hidle, ?_, ?_⟩
  · intro hoff
    by_contra hle
    rw [hidle (by omega), hon] at hoff
    exact Bool.noConfusion hoff
  · intro h
    exact (hfire h).1

/-- C12 at a concrete input: pressed 296 ms before the counter wraps, checked 2400001 ms later,
when `millis()` shows 2399705. -/
theorem C12_autoOff_across_rollover_witness :
    millis (handleClient World.quiet none (Sys.brewing 4294967000 4297367001)) = 2399705 ∧
    sub32 (millis (handleClient World.quiet none (Sys.brewing 4294967000 4297367001)))
      (handleClient World.quiet none (Sys.brewing 4294967000 4297367001)).st.brewOnSince = 2400001 ∧
    (loop World.quiet none (Sys.brewing 4294967000 4297367001)).st.brewOn = false :=
  have h := C12_autoOff_across_rollover World.quiet none (Sys.brewing 4294967000 4297367001)
    2400001 (by decide) (by decide) (by decide) (by decide) (by decide)
  ⟨by decide, h.1, (h.2.1 (by decide)).1⟩

end Brew
